import Mathlib

/-!
Shallow embedding of the Live2D Cubism animation engine from
`src/js/modules/l2dframework/animation.ts`.

Numbers are embedded as rationals.  JavaScript arrays are lists with
explicit defaulted reads (`List.getD`); the mutable Model Runtime and the
per-tick touched-bitmap pair (`stackFlags`) are threaded as explicit
state.  Event callbacks are modelled by their observable effect: the list
of payload values passed to `callAnimationCallback` during one
evaluation (each registered callback is invoked once, in registration
order, for each entry of that list).
-/

/-- Cubism animation point (`AnimationPoint`): a keyframe `(time, value)`. -/
structure AnimationPoint where
  time : ℚ
  value : ℚ
  deriving DecidableEq

/-- The closed set of builtin segment evaluators
(`BuiltinAnimationSegmentEvaluators`); the source stores one of exactly
these four functions in every segment it constructs. -/
inductive SegmentKind where
  | LINEAR
  | BEZIER
  | STEPPED
  | INVERSE_STEPPED
  deriving DecidableEq

/-- Cubism animation track segment (`AnimationSegment`): a point offset
plus its interpolation kernel. -/
structure AnimationSegment where
  offset : ℕ
  kind : SegmentKind
  deriving DecidableEq

/-- JS `points[i]` read; out-of-range reads (never performed by the source
on well-formed curves) default to the zero point. -/
def getP (points : List AnimationPoint) (i : ℕ) : AnimationPoint :=
  points.getD i ⟨0, 0⟩

/-- JS `segments[i]` read with a default for out-of-range indices. -/
def getSeg (segments : List AnimationSegment) (i : ℕ) : AnimationSegment :=
  segments.getD i ⟨0, SegmentKind.LINEAR⟩

namespace BuiltinAnimationSegmentEvaluators

/-- `lerp(a, b, t)` over `(time, value)` pairs. -/
def lerp (a b : AnimationPoint) (t : ℚ) : AnimationPoint :=
  ⟨a.time + (b.time - a.time) * t, a.value + (b.value - a.value) * t⟩

/-- `LINEAR` segment evaluator. -/
def LINEAR (points : List AnimationPoint) (offset : ℕ) (time : ℚ) : ℚ :=
  let p0 := getP points offset
  let p1 := getP points (offset + 1)
  let t := (time - p0.time) / (p1.time - p0.time)
  p0.value + (p1.value - p0.value) * t

/-- `BEZIER` segment evaluator: De Casteljau over four control points. -/
def BEZIER (points : List AnimationPoint) (offset : ℕ) (time : ℚ) : ℚ :=
  let t := (time - (getP points offset).time) /
    ((getP points (offset + 3)).time - (getP points offset).time)
  let p01 := lerp (getP points offset) (getP points (offset + 1)) t
  let p12 := lerp (getP points (offset + 1)) (getP points (offset + 2)) t
  let p23 := lerp (getP points (offset + 2)) (getP points (offset + 3)) t
  let p012 := lerp p01 p12 t
  let p123 := lerp p12 p23 t
  (lerp p012 p123 t).value

/-- `STEPPED` segment evaluator (left-hold). -/
def STEPPED (points : List AnimationPoint) (offset : ℕ) (_time : ℚ) : ℚ :=
  (getP points offset).value

/-- `INVERSE_STEPPED` segment evaluator (right-hold). -/
def INVERSE_STEPPED (points : List AnimationPoint) (offset : ℕ) (_time : ℚ) : ℚ :=
  (getP points (offset + 1)).value

end BuiltinAnimationSegmentEvaluators

/-- Dispatch a `SegmentKind` to its builtin evaluator (the source stores
the function itself in `AnimationSegment.evaluate`). -/
def segEvaluate : SegmentKind → List AnimationPoint → ℕ → ℚ → ℚ
  | SegmentKind.LINEAR => BuiltinAnimationSegmentEvaluators.LINEAR
  | SegmentKind.BEZIER => BuiltinAnimationSegmentEvaluators.BEZIER
  | SegmentKind.STEPPED => BuiltinAnimationSegmentEvaluators.STEPPED
  | SegmentKind.INVERSE_STEPPED => BuiltinAnimationSegmentEvaluators.INVERSE_STEPPED

/-- Cubism animation track (`AnimationTrack`). -/
structure AnimationTrack where
  targetId : String
  points : List AnimationPoint
  segments : List AnimationSegment
  deriving DecidableEq

/-- The forward scan of `AnimationTrack.evaluate`:
`for (; s < lastS; ++s) { if (points[segments[s+1].offset].time >= time) break; }`.
The countdown argument is the remaining iteration budget `lastS - s`,
which makes the loop structurally recursive; the initial call passes
exactly `lastS`, so the translation computes the same index the source
loop stops at. -/
def scanFrom (points : List AnimationPoint) (segments : List AnimationSegment)
    (time : ℚ) : ℕ → ℕ → ℕ
  | s, 0 => s
  | s, n + 1 =>
    if (getP points (getSeg segments (s + 1)).offset).time ≥ time then s
    else scanFrom points segments time (s + 1) n

/-- `AnimationTrack.evaluate(time)`: select a segment by forward scan,
then apply its kernel. -/
def AnimationTrack.evaluate (track : AnimationTrack) (time : ℚ) : ℚ :=
  let lastS := track.segments.length - 1
  let s := scanFrom track.points track.segments time 0 lastS
  segEvaluate (getSeg track.segments s).kind track.points
    (getSeg track.segments s).offset time

/-- The break condition of the segment-selection scan at index `s`:
`points[segments[s+1].offset].time >= time`. -/
def segBoundary (points : List AnimationPoint) (segments : List AnimationSegment)
    (time : ℚ) (s : ℕ) : Prop :=
  (getP points (getSeg segments (s + 1)).offset).time ≥ time

instance (points : List AnimationPoint) (segments : List AnimationSegment)
    (time : ℚ) (s : ℕ) : Decidable (segBoundary points segments time s) := by
  unfold segBoundary
  infer_instance

/-- The 4-argument Cubism animation layer blender interface
(`IAnimationBlender`): `(source, destination, initial, weight) → value`. -/
abbrev IAnimationBlender := ℚ → ℚ → ℚ → ℚ → ℚ

/-- Cubism crossfade weighter interface (`IAnimationCrossfadeWeighter`). -/
abbrev IAnimationCrossfadeWeighter := ℚ → ℚ → ℚ

namespace BuiltinAnimationBlenders

/-- `OVERRIDE` blender. -/
def OVERRIDE (source destination _initial weight : ℚ) : ℚ :=
  destination * weight + source * (1 - weight)

/-- `ADD` blender. -/
def ADD (source destination initial weight : ℚ) : ℚ :=
  source + (destination - initial) * weight

/-- The body of `MULTIPLY` exactly as written in the source:
`(source, destination, weight) => source * (1 + (destination - 1) * weight)`,
a function of three parameters. -/
def MULTIPLY_kernel (source destination weight : ℚ) : ℚ :=
  source * (1 + (destination - 1) * weight)

/-- `MULTIPLY` as used through the 4-argument `IAnimationBlender`
interface.  The source declares only three parameters
`(source, destination, weight)` for it, so at every call site
`blend(source, destination, initial, weight)` JavaScript binds the third
positional argument — `initial` — to the parameter named `weight` and
discards the fourth argument.  This definition embeds that call-site
behavior. -/
def MULTIPLY (source destination initial _weight : ℚ) : ℚ :=
  MULTIPLY_kernel source destination initial

end BuiltinAnimationBlenders

namespace BuiltinCrossfadeWeighters

/-- `LINEAR(time, duration) = time / duration`. -/
def LINEAR (time duration : ℚ) : ℚ :=
  time / duration

end BuiltinCrossfadeWeighters

/-- The Model Runtime's `parameters` view: identifiers, mutable values,
defaults, and the count used to size the touched bitmap. -/
structure ModelParameters where
  ids : List String
  values : List ℚ
  defaultValues : List ℚ
  count : ℕ
  deriving DecidableEq

/-- The Model Runtime's `parts` view. -/
structure ModelParts where
  ids : List String
  opacities : List ℚ
  count : ℕ
  deriving DecidableEq

/-- The external Model Runtime (`Live2DCubismCore.Model`) as read and
mutated by the animation engine. -/
structure Model where
  parameters : ModelParameters
  parts : ModelParts
  deriving DecidableEq

/-- The per-tick touched-bitmap pair `stackFlags`: component `params`
models `stackFlags[0]` (parameters) and `parts` models `stackFlags[1]`
(part opacities). -/
structure StackFlags where
  params : List Bool
  parts : List Bool
  deriving DecidableEq

/-- JS `Array.prototype.indexOf`: index of the first strict-equality
match, `-1` if absent. -/
def jsIndexOf (l : List String) (x : String) : Int :=
  match l.findIdx? (fun y => y == x) with
  | some i => (i : Int)
  | none => -1

/-- Unit of animation user data (`AnimationUserDataBody`). -/
structure AnimationUserDataBody where
  time : ℚ
  value : String
  deriving DecidableEq

/-- Cubism animation (`Animation`): a deserialized motion clip.
`lastTime` embeds the private mutable `_lastTime` field. -/
structure Animation where
  duration : ℚ
  fps : ℚ
  loop : Bool
  modelTracks : List AnimationTrack
  parameterTracks : List AnimationTrack
  partOpacityTracks : List AnimationTrack
  userDataBodys : List AnimationUserDataBody
  lastTime : ℚ
  deriving DecidableEq

/-- A parameter group as consumed by the model-track branch of
`Animation.evaluate` (`groups.getGroupById(id)` yields an object with a
`target` string and an `ids` list). -/
structure AnimationGroup where
  target : String
  ids : List String

/-- The optional `groups` collaborator: a `getGroupById` lookup. -/
abbrev GroupLookup := String → Option AnimationGroup

/-- The loop-folding step of `Animation.evaluate`:
`while (time > this.duration) { time -= this.duration; }`.
The `0 < duration` conjunct in the guard makes the function total; it
agrees with the source whenever the source loop terminates (for
`duration ≤ 0 < time - duration` the JS loop never exits). -/
def foldTime (duration : ℚ) (t : ℚ) : ℚ :=
  if h : 0 < duration ∧ duration < t then foldTime duration (t - duration) else t
termination_by (⌈t / duration⌉).toNat
decreasing_by
  obtain ⟨hd, hdt⟩ := h
  have h1 : (t - duration) / duration = t / duration - 1 := by
    rw [sub_div, div_self (ne_of_gt hd)]
  have h2 : (1 : ℤ) < ⌈t / duration⌉ := by
    rw [Int.lt_ceil]
    push_cast
    rw [lt_div_iff hd]
    linarith
  rw [h1, Int.ceil_sub_one]
  have h3 := h2
  generalize ⌈t / duration⌉ = z at h3 ⊢
  omega

/-- `Animation.isEventTriggered(timeEvaluate, timeForward, timeBack, duration)`. -/
def isEventTriggered (timeEvaluate timeForward timeBack duration : ℚ) : Bool :=
  if timeForward > timeBack then
    decide (timeEvaluate > timeBack ∧ timeEvaluate < timeForward)
  else
    decide ((timeEvaluate > 0 ∧ timeEvaluate < timeForward) ∨
      (timeEvaluate > timeBack ∧ timeEvaluate < duration))

/-- The per-parameter body shared by the parameter-track loop and the
model-track group branch of `Animation.evaluate`: resolve `targetId`
against `parameters.ids`; on first touch this tick reset the value to its
stored default and set the flag; then blend. -/
def applyParamBlend (blend : IAnimationBlender) (weight valueAtTime valueAtZero : ℚ)
    (targetId : String) (st : Model × StackFlags) : Model × StackFlags :=
  let target := st.1
  let flags := st.2
  let p := jsIndexOf target.parameters.ids targetId
  if p ≥ 0 then
    let pn := p.toNat
    let st2 :=
      if flags.params.getD pn false != true then
        ({ target with parameters := { target.parameters with
            values := target.parameters.values.set pn
              (target.parameters.defaultValues.getD pn 0) } },
         { flags with params := flags.params.set pn true })
      else (target, flags)
    let target2 := st2.1
    let flags2 := st2.2
    let newVal := blend (target2.parameters.values.getD pn 0) valueAtTime valueAtZero weight
    ({ target2 with parameters := { target2.parameters with
        values := target2.parameters.values.set pn newVal } }, flags2)
  else (target, flags)

/-- The part-opacity body of `Animation.evaluate`: same shape as the
parameter body except the first-touch default is the constant `1`. -/
def applyPartBlend (blend : IAnimationBlender) (weight valueAtTime valueAtZero : ℚ)
    (targetId : String) (st : Model × StackFlags) : Model × StackFlags :=
  let target := st.1
  let flags := st.2
  let p := jsIndexOf target.parts.ids targetId
  if p ≥ 0 then
    let pn := p.toNat
    let st2 :=
      if flags.parts.getD pn false != true then
        ({ target with parts := { target.parts with
            opacities := target.parts.opacities.set pn 1 } },
         { flags with parts := flags.parts.set pn true })
      else (target, flags)
    let target2 := st2.1
    let flags2 := st2.2
    let newVal := blend (target2.parts.opacities.getD pn 0) valueAtTime valueAtZero weight
    ({ target2 with parts := { target2.parts with
        opacities := target2.parts.opacities.set pn newVal } }, flags2)
  else (target, flags)

/-- The model-track branch of `Animation.evaluate`: only acts when a
`groups` collaborator is present and resolves the track id to a group
with `target === "Parameter"`; then applies the parameter body to every
grouped id. -/
def evalModelTrack (groups : Option GroupLookup) (blend : IAnimationBlender)
    (weight time : ℚ) (track : AnimationTrack) (st : Model × StackFlags) :
    Model × StackFlags :=
  match groups with
  | none => st
  | some getGroupById =>
    match getGroupById track.targetId with
    | none => st
    | some g =>
      if g.target = "Parameter" then
        g.ids.foldl (fun st2 tid =>
          applyParamBlend blend weight (track.evaluate time) (track.evaluate 0) tid st2) st
      else st

/-- Result of one `Animation.evaluate` call: the mutated target, the
mutated shared touched bitmap, the animation with its `_lastTime`
updated, and the payloads passed to `callAnimationCallback`. -/
structure EvalResult where
  target : Model
  flags : StackFlags
  anim : Animation
  fired : List String
  deriving DecidableEq

/-- `Animation.evaluate(time, weight, blend, target, stackFlags, groups)`. -/
def Animation.evaluate (anim : Animation) (time weight : ℚ)
    (blend : IAnimationBlender) (target : Model) (stackFlags : StackFlags)
    (groups : Option GroupLookup) : EvalResult :=
  if weight ≤ 1/100 then ⟨target, stackFlags, anim, []⟩
  else
    let time2 := if anim.loop then foldTime anim.duration time else time
    let st := anim.parameterTracks.foldl (fun st t =>
        applyParamBlend blend weight (t.evaluate time2) (t.evaluate 0) t.targetId st)
      (target, stackFlags)
    let st := anim.partOpacityTracks.foldl (fun st t =>
        applyPartBlend blend weight (t.evaluate time2) (t.evaluate 0) t.targetId st) st
    let st := anim.modelTracks.foldl (fun st t =>
        evalModelTrack groups blend weight time2 t st) st
    let fired := (anim.userDataBodys.filter (fun ud =>
        isEventTriggered ud.time time2 anim.lastTime anim.duration)).map
      (fun ud => ud.value)
    ⟨st.1, st.2, { anim with lastTime := time2 }, fired⟩

/-- Cubism animation layer (`AnimationLayer`); field names follow the
source's private fields. -/
structure AnimationLayer where
  _animation : Option Animation
  _time : ℚ
  _goalAnimation : Option Animation
  _goalTime : ℚ
  _fadeTime : ℚ
  _fadeDuration : ℚ
  _play : Bool
  blend : IAnimationBlender
  weightCrossfade : IAnimationCrossfadeWeighter
  weight : ℚ

/-- `AnimationLayer.play(animation, fadeDuration)`. -/
def AnimationLayer.play (l : AnimationLayer) (animation : Animation)
    (fadeDuration : ℚ) : AnimationLayer :=
  if l._animation.isSome ∧ fadeDuration > 0 then
    { l with _goalAnimation := some animation, _goalTime := 0,
             _fadeTime := 0, _fadeDuration := fadeDuration }
  else
    { l with _animation := some animation, _time := 0, _play := true }

/-- `AnimationLayer.resume()`. -/
def AnimationLayer.resume (l : AnimationLayer) : AnimationLayer :=
  { l with _play := true }

/-- `AnimationLayer.pause()`. -/
def AnimationLayer.pause (l : AnimationLayer) : AnimationLayer :=
  { l with _play := false }

/-- `AnimationLayer.stop()`. -/
def AnimationLayer.stop (l : AnimationLayer) : AnimationLayer :=
  { l with _play := false, _time := 0 }

/-- `AnimationLayer._update(deltaTime)`: early return when not playing,
otherwise advance all three clocks. -/
def AnimationLayer._update (l : AnimationLayer) (deltaTime : ℚ) : AnimationLayer :=
  if !l._play then l
  else { l with _time := l._time + deltaTime,
                _goalTime := l._goalTime + deltaTime,
                _fadeTime := l._fadeTime + deltaTime }

/-- `AnimationLayer._evaluate(target, stackFlags)`: returns the mutated
layer, target, bitmap, and the event payloads fired by the current and
goal evaluations. -/
def AnimationLayer._evaluate (l : AnimationLayer) (target : Model)
    (stackFlags : StackFlags) : AnimationLayer × Model × StackFlags × List String :=
  match l._animation with
  | none => (l, target, stackFlags, [])
  | some anim =>
    let weight := if l.weight < 1 then l.weight else 1
    let animationWeight :=
      if l._goalAnimation.isSome then
        weight * l.weightCrossfade l._fadeTime l._fadeDuration
      else weight
    let r := anim.evaluate l._time animationWeight l.blend target stackFlags none
    match l._goalAnimation with
    | none => ({ l with _animation := some r.anim }, r.target, r.flags, r.fired)
    | some goal =>
      let animationWeight2 := 1 - weight * l.weightCrossfade l._fadeTime l._fadeDuration
      let r2 := goal.evaluate l._goalTime animationWeight2 l.blend r.target r.flags none
      if l._fadeTime > l._fadeDuration then
        ({ l with _animation := some r2.anim, _time := l._goalTime,
                  _goalAnimation := none },
         r2.target, r2.flags, r.fired ++ r2.fired)
      else
        ({ l with _animation := some r.anim, _goalAnimation := some r2.anim },
         r2.target, r2.flags, r.fired ++ r2.fired)

/-- Cubism animator (`Animator`): the layer list is in registration
order, matching the insertion-ordered `Map` the source iterates with
`forEach`. -/
structure Animator where
  _target : Model
  _timeScale : ℚ
  _layers : List (String × AnimationLayer)

/-- `Animator.updateAndEvaluate(deltaTime)`: scale the delta, advance
layers when the scaled delta exceeds the `0.001` epsilon, then always
allocate a fresh touched-bitmap pair sized to the target's counts and
evaluate every layer in order against the shared pair.  Also returns the
concatenated fired-event payloads. -/
def Animator.updateAndEvaluate (a : Animator) (deltaTime : ℚ) : Animator × List String :=
  let dt := deltaTime * (if a._timeScale > 0 then a._timeScale else 0)
  let layers :=
    if dt > 1/1000 then a._layers.map (fun nl => (nl.1, nl.2._update dt))
    else a._layers
  let paramStackFlags := List.replicate a._target.parameters.count false
  let partsStackFlags := List.replicate a._target.parts.count false
  let stackFlags : StackFlags := ⟨paramStackFlags, partsStackFlags⟩
  let r := layers.foldl
    (fun acc nl =>
      let e := nl.2._evaluate acc.2.1 acc.2.2.1
      (acc.1 ++ [(nl.1, e.1)], e.2.1, e.2.2.1, acc.2.2.2 ++ e.2.2.2))
    (([] : List (String × AnimationLayer)), a._target, stackFlags, ([] : List String))
  ({ a with _target := r.2.1, _layers := r.1 }, r.2.2.2)

/-! ## Concrete objects used by witnesses and concrete checks -/

/-- Concrete linear track over points `(0,0), (1,10)` targeting `"ParamA"`. -/
def linTrack : AnimationTrack :=
  ⟨"ParamA", [⟨0, 0⟩, ⟨1, 10⟩], [⟨0, SegmentKind.LINEAR⟩]⟩

/-- Concrete stepped track holding value `7`, also targeting `"ParamA"`. -/
def track2 : AnimationTrack :=
  ⟨"ParamA", [⟨0, 7⟩, ⟨1, 7⟩], [⟨0, SegmentKind.STEPPED⟩]⟩

/-- A concrete Model Runtime: one parameter `"ParamA"` (current value
`1/4`, default `1/3`) and one part at full opacity. -/
def M1 : Model := ⟨⟨["ParamA"], [1/4], [1/3], 1⟩, ⟨["Part1"], [1], 1⟩⟩

/-- A fresh touched-bitmap pair sized for `M1`. -/
def F1 : StackFlags := ⟨[false], [false]⟩

/-- Concrete non-looping clip of duration 2 with one parameter track. -/
def clipA : Animation := ⟨2, 30, false, [], [linTrack], [], [], 0⟩

/-- Concrete empty clip used as a crossfade goal. -/
def clipG : Animation := ⟨2, 30, false, [], [], [], [], 0⟩

/-- Concrete looping clip of duration 2 with a user event at time `0.1`
and `_lastTime = 1.9`. -/
def clipEvt : Animation := ⟨2, 30, true, [], [], [], [⟨1/10, "evt"⟩], 19/10⟩

/-! ## Claims -/

/-- Claim C2 (code bug): through the 4-argument blender interface used at
every call site, the claim expects
`MULTIPLY(source, destination, initial, weight) = source * (1 + (destination - 1) * weight)`
with `initial` having no influence.  The source declares `MULTIPLY` with
only three parameters, so the call site's `initial` argument is bound to
its `weight` parameter and the actual `weight` argument is dropped.  At
`(source, destination, initial, weight) = (2, 3, 0, 1)` the code returns
`2` while the claimed result is `6`, and changing only `initial` changes
the result. -/
theorem c2_multiply_binds_initial_to_weight :
    BuiltinAnimationBlenders.MULTIPLY 2 3 0 1 = 2 ∧
    2 * (1 + ((3 : ℚ) - 1) * 1) = 6 ∧
    BuiltinAnimationBlenders.MULTIPLY 2 3 0 1 ≠ 2 * (1 + ((3 : ℚ) - 1) * 1) ∧
    BuiltinAnimationBlenders.MULTIPLY 2 3 0 1 ≠ BuiltinAnimationBlenders.MULTIPLY 2 3 1 1 := by
  refine ⟨?_, ?_, ?_, ?_⟩ <;>
    norm_num [BuiltinAnimationBlenders.MULTIPLY, BuiltinAnimationBlenders.MULTIPLY_kernel]

/-- Claim C4: `isEventTriggered(eventTime, timeForward, timeBack, duration)`
returns true iff, when `timeForward > timeBack`,
`timeBack < eventTime < timeForward`, and otherwise
`0 < eventTime < timeForward` or `timeBack < eventTime < duration`; all
comparisons are strict, so an event time exactly equal to `timeForward`
or to `timeBack` never triggers. -/
theorem c4_isEventTriggered_characterization :
    ∀ timeEvaluate timeForward timeBack duration : ℚ,
      (isEventTriggered timeEvaluate timeForward timeBack duration = true ↔
        (if timeForward > timeBack then
          timeBack < timeEvaluate ∧ timeEvaluate < timeForward
        else
          (0 < timeEvaluate ∧ timeEvaluate < timeForward) ∨
          (timeBack < timeEvaluate ∧ timeEvaluate < duration))) ∧
      isEventTriggered timeForward timeForward timeBack duration = false ∧
      isEventTriggered timeBack timeForward timeBack duration = false := by
  intro e f b d
  refine ⟨?_, ?_, ?_⟩
  · unfold isEventTriggered
    split <;> simp
  · unfold isEventTriggered
    split_ifs with h
    · rw [decide_eq_false_iff_not]
      rintro ⟨h1, h2⟩
      exact absurd h2 (lt_irrefl f)
    · rw [decide_eq_false_iff_not]
      rintro (⟨h1, h2⟩ | ⟨h1, h2⟩)
      · exact absurd h2 (lt_irrefl f)
      · exact absurd h1 h
  · unfold isEventTriggered
    split_ifs with h
    · rw [decide_eq_false_iff_not]
      rintro ⟨h1, h2⟩
      exact absurd h1 (lt_irrefl b)
    · rw [decide_eq_false_iff_not]
      rintro (⟨h1, h2⟩ | ⟨h1, h2⟩)
      · exact absurd h2 h
      · exact absurd h1 (lt_irrefl b)

/-- Claim C6: when `weight ≤ 0.01`, `Animation.evaluate` has no side
effect at all — the target's parameter values and part opacities, the
shared bitmap, and the animation's `_lastTime` are unchanged, and no
event callback payload is produced. -/
theorem c6_weight_gate (anim : Animation) (time weight : ℚ)
    (blend : IAnimationBlender) (target : Model) (stackFlags : StackFlags)
    (groups : Option GroupLookup) (hw : weight ≤ 1/100) :
    anim.evaluate time weight blend target stackFlags groups =
      ⟨target, stackFlags, anim, []⟩ := by
  unfold Animation.evaluate
  rw [if_pos hw]

/-- Witness for C6 at the concrete weight `0.005`. -/
theorem c6_weight_gate_witness :
    (1/200 : ℚ) ≤ 1/100 ∧
    clipEvt.evaluate 1 (1/200) BuiltinAnimationBlenders.OVERRIDE M1 F1 none =
      ⟨M1, F1, clipEvt, []⟩ :=
  ⟨by norm_num,
    c6_weight_gate clipEvt 1 (1/200) BuiltinAnimationBlenders.OVERRIDE M1 F1 none (by norm_num)⟩

/-- Counterexample for claim C3: for `clipEvt` (user event at `0.1`,
`duration = 2`, `_lastTime = 1.9`), evaluating at folded time exactly
`0.1` produces no callback payload — the strict comparisons
`0 < 0.1 < 0.1` and `1.9 < 0.1 < 2` both fail, so the event does not
fire, contradicting the claim that it must. -/
theorem c3_counterexample_no_fire_at_eventTime :
    (clipEvt.evaluate (1/10) 1 BuiltinAnimationBlenders.OVERRIDE M1 F1 none).fired = [] := by
  have hf : foldTime 2 (1/10) = 1/10 := by
    rw [foldTime, dif_neg (by norm_num : ¬((0:ℚ) < 2 ∧ (2:ℚ) < 1/10))]
  have he : isEventTriggered (1/10) (1/10) (19/10) 2 = false := by
    unfold isEventTriggered
    norm_num
  unfold Animation.evaluate
  simp only [clipEvt]
  norm_num [hf, he]

/-- Claim C3 (amended): with an event at `0.1`, `duration = 2`,
`lastEvaluatedTime = 1.9`, a wrapped evaluation fires the event only when
the folded time strictly exceeds the event time: at folded time `0.15`
the payload `"evt"` is produced (each registered callback is invoked with
it), while at folded time exactly `0.1` nothing fires because every
comparison in `isEventTriggered` is strict. -/
theorem c3_fires_only_strictly_past_eventTime :
    (clipEvt.evaluate (3/20) 1 BuiltinAnimationBlenders.OVERRIDE M1 F1 none).fired = ["evt"] ∧
    (clipEvt.evaluate (1/10) 1 BuiltinAnimationBlenders.OVERRIDE M1 F1 none).fired = [] := by
  have hf1 : foldTime 2 (3/20) = 3/20 := by
    rw [foldTime, dif_neg (by norm_num : ¬((0:ℚ) < 2 ∧ (2:ℚ) < 3/20))]
  have hf2 : foldTime 2 (1/10) = 1/10 := by
    rw [foldTime, dif_neg (by norm_num : ¬((0:ℚ) < 2 ∧ (2:ℚ) < 1/10))]
  have he1 : isEventTriggered (1/10) (3/20) (19/10) 2 = true := by
    unfold isEventTriggered
    norm_num
  have he2 : isEventTriggered (1/10) (1/10) (19/10) 2 = false := by
    unfold isEventTriggered
    norm_num
  constructor <;>
    · unfold Animation.evaluate
      simp only [clipEvt]
      norm_num [hf1, hf2, he1, he2]

/-- Counterexample for claim C5: with `duration = 2`, the repeated
subtraction `while (time > duration) time -= duration` applied to
`time = 4` stops at `2`, which is not in the claimed half-open interval
`[0, 2)`. -/
theorem c5_counterexample_fold_hits_duration :
    foldTime 2 4 = 2 ∧ ¬ foldTime 2 4 < 2 := by
  have h : foldTime 2 4 = 2 := by
    rw [foldTime, dif_pos (by norm_num : (0:ℚ) < 2 ∧ (2:ℚ) < 4), foldTime,
      dif_neg (by norm_num : ¬((0:ℚ) < 2 ∧ (2:ℚ) < 4 - 2))]
    norm_num
  exact ⟨h, by rw [h]; exact lt_irrefl 2⟩

/-- Strong induction on the iteration count of the folding loop: for a
positive duration and nonnegative time, `foldTime` subtracts the
duration some whole number of times and lands in `[0, duration]`. -/
lemma foldTime_bounds_aux (d : ℚ) (hd : 0 < d) :
    ∀ n : ℕ, ∀ t : ℚ, (⌈t / d⌉).toNat ≤ n → 0 ≤ t →
      ∃ k : ℕ, foldTime d t = t - k * d ∧ 0 ≤ foldTime d t ∧ foldTime d t ≤ d := by
  intro n
  induction n with
  | zero =>
    intro t hn ht
    have hnd : ¬ d < t := by
      intro hdt
      have h2 : (1 : ℤ) < ⌈t / d⌉ := by
        rw [Int.lt_ceil]
        push_cast
        rw [lt_div_iff₀ hd]
        linarith
      generalize hz : ⌈t / d⌉ = z at hn h2
      omega
    rw [foldTime, dif_neg (fun hc => hnd hc.2)]
    exact ⟨0, by norm_num, ht, le_of_not_lt hnd⟩
  | succ n ih =>
    intro t hn ht
    by_cases hdt : d < t
    · rw [foldTime, dif_pos ⟨hd, hdt⟩]
      have ht2 : 0 ≤ t - d := by linarith
      have hn2 : (⌈(t - d) / d⌉).toNat ≤ n := by
        have h1 : (t - d) / d = t / d - 1 := by
          rw [sub_div, div_self (ne_of_gt hd)]
        rw [h1, Int.ceil_sub_one]
        generalize hz : ⌈t / d⌉ = z at hn ⊢
        omega
      obtain ⟨k, hk1, hk2, hk3⟩ := ih (t - d) hn2 ht2
      refine ⟨k + 1, ?_, hk2, hk3⟩
      rw [hk1]
      push_cast
      ring
    · rw [foldTime, dif_neg (fun hc => hdt hc.2)]
      exact ⟨0, by norm_num, ht, le_of_not_lt hdt⟩

/-- Claim C5 (amended): for a looping animation, `evaluate` folds the
time by repeated subtraction of the duration into the closed interval
`[0, duration]` — an exact positive multiple of the duration folds to
`duration` itself, not into `[0, duration)` — and an animation with
`duration = 2`, `loop = true` evaluated at time `5` behaves identically
to evaluation at time `1`. -/
theorem c5_loop_folding :
    (∀ d t : ℚ, 0 < d → 0 ≤ t →
      ∃ k : ℕ, foldTime d t = t - k * d ∧ 0 ≤ foldTime d t ∧ foldTime d t ≤ d) ∧
    (∀ (anim : Animation) (w : ℚ) (blend : IAnimationBlender) (target : Model)
      (flags : StackFlags) (groups : Option GroupLookup),
      anim.duration = 2 → anim.loop = true →
      anim.evaluate 5 w blend target flags groups =
        anim.evaluate 1 w blend target flags groups) := by
  constructor
  · intro d t hd ht
    exact foldTime_bounds_aux d hd (⌈t / d⌉).toNat t le_rfl ht
  · intro anim w blend target flags groups hdur hloop
    have h5 : foldTime 2 5 = 1 := by
      rw [foldTime, dif_pos (by norm_num : (0:ℚ) < 2 ∧ (2:ℚ) < 5), foldTime,
        dif_pos (by norm_num : (0:ℚ) < 2 ∧ (2:ℚ) < 5 - 2), foldTime,
        dif_neg (by norm_num : ¬((0:ℚ) < 2 ∧ (2:ℚ) < 5 - 2 - 2))]
      norm_num
    have h1 : foldTime 2 1 = 1 := by
      rw [foldTime, dif_neg (by norm_num : ¬((0:ℚ) < 2 ∧ (2:ℚ) < 1))]
    unfold Animation.evaluate
    rw [hloop, hdur]
    norm_num [h5, h1]

/-- Witness for C5 at `duration = 2`, `time = 5`, and at the concrete
looping clip `clipEvt` (duration 2, loop true). -/
theorem c5_loop_folding_witness :
    (0 : ℚ) < 2 ∧ (0 : ℚ) ≤ 5 ∧
    (∃ k : ℕ, foldTime 2 5 = 5 - k * 2 ∧ 0 ≤ foldTime 2 5 ∧ foldTime 2 5 ≤ 2) ∧
    clipEvt.duration = 2 ∧ clipEvt.loop = true ∧
    clipEvt.evaluate 5 1 BuiltinAnimationBlenders.OVERRIDE M1 F1 none =
      clipEvt.evaluate 1 1 BuiltinAnimationBlenders.OVERRIDE M1 F1 none :=
  ⟨by norm_num, by norm_num, c5_loop_folding.1 2 5 (by norm_num) (by norm_num),
    rfl, rfl,
    c5_loop_folding.2 clipEvt 1 BuiltinAnimationBlenders.OVERRIDE M1 F1 none rfl rfl⟩

/-- The forward scan starting at `s` with budget `n` stays in `[s, s+n]`,
stops either at exhaustion (`s+n`) or at an index satisfying the break
condition, and skips only indices where the break condition fails. -/
lemma scanFrom_spec (points : List AnimationPoint) (segments : List AnimationSegment)
    (time : ℚ) : ∀ (n s : ℕ),
    s ≤ scanFrom points segments time s n ∧
    scanFrom points segments time s n ≤ s + n ∧
    (scanFrom points segments time s n = s + n ∨
      segBoundary points segments time (scanFrom points segments time s n)) ∧
    ∀ j, s ≤ j → j < scanFrom points segments time s n →
      ¬ segBoundary points segments time j := by
  intro n
  induction n with
  | zero =>
    intro s
    refine ⟨le_rfl, by simp [scanFrom], Or.inl (by simp [scanFrom]), ?_⟩
    intro j h1 h2
    simp only [scanFrom] at h2
    omega
  | succ n ih =>
    intro s
    simp only [scanFrom]
    split_ifs with hc
    · refine ⟨le_rfl, by omega, Or.inr hc, ?_⟩
      intro j h1 h2
      omega
    · obtain ⟨ih1, ih2, ih3, ih4⟩ := ih (s + 1)
      refine ⟨by omega, by omega, ?_, ?_⟩
      · rcases ih3 with h | h
        · exact Or.inl (by omega)
        · exact Or.inr h
      · intro j h1 h2
        rcases Nat.eq_or_lt_of_le h1 with h3 | h3
        · rw [← h3]
          exact hc
        · exact ih4 j h3 h2

/-- Claim C8: `AnimationTrack.evaluate` selects the smallest segment
index `s` such that either `s` is the last segment or
`points[segments[s+1].offset].time >= time`, and returns that segment's
kernel applied at `time`; consequently, for the curve with points
`(0,0), (1,10)` and one linear segment, evaluation at `0.5` is exactly
`5`. -/
theorem c8_segment_selection :
    (∀ (track : AnimationTrack) (time : ℚ), 0 < track.segments.length →
      track.evaluate time =
        segEvaluate (getSeg track.segments
            (scanFrom track.points track.segments time 0 (track.segments.length - 1))).kind
          track.points
          (getSeg track.segments
            (scanFrom track.points track.segments time 0 (track.segments.length - 1))).offset
          time ∧
      scanFrom track.points track.segments time 0 (track.segments.length - 1) ≤
        track.segments.length - 1 ∧
      (scanFrom track.points track.segments time 0 (track.segments.length - 1) =
          track.segments.length - 1 ∨
        segBoundary track.points track.segments time
          (scanFrom track.points track.segments time 0 (track.segments.length - 1))) ∧
      ∀ j < scanFrom track.points track.segments time 0 (track.segments.length - 1),
        ¬ (j = track.segments.length - 1 ∨
          segBoundary track.points track.segments time j)) ∧
    linTrack.evaluate (1/2) = 5 := by
  constructor
  · intro track time _hlen
    obtain ⟨h1, h2, h3, h4⟩ :=
      scanFrom_spec track.points track.segments time (track.segments.length - 1) 0
    refine ⟨rfl, by omega, by simpa using h3, ?_⟩
    intro j hj
    push_neg
    exact ⟨by omega, h4 j (Nat.zero_le j) hj⟩
  · norm_num [AnimationTrack.evaluate, linTrack, scanFrom, getSeg, getP, segEvaluate,
      BuiltinAnimationSegmentEvaluators.LINEAR]

/-- Witness for C8 at the concrete linear curve and time `0.5`. -/
theorem c8_segment_selection_witness :
    0 < linTrack.segments.length ∧
    scanFrom linTrack.points linTrack.segments (1/2) 0 (linTrack.segments.length - 1) ≤
      linTrack.segments.length - 1 :=
  ⟨by decide, (c8_segment_selection.1 linTrack (1/2) (by decide)).2.1⟩

/-- Claim C9: for a curve consisting of a single Bézier segment over four
control points ordered by time, evaluation at the first control point's
time yields exactly its value, and evaluation at the last control
point's time yields exactly its value. -/
theorem c9_bezier_endpoints (p0 p1 p2 p3 : AnimationPoint) (tid : String)
    (hord : p0.time < p3.time) :
    AnimationTrack.evaluate ⟨tid, [p0, p1, p2, p3], [⟨0, SegmentKind.BEZIER⟩]⟩ p0.time =
      p0.value ∧
    AnimationTrack.evaluate ⟨tid, [p0, p1, p2, p3], [⟨0, SegmentKind.BEZIER⟩]⟩ p3.time =
      p3.value := by
  have hne : p3.time - p0.time ≠ 0 := sub_ne_zero.mpr (ne_of_gt hord)
  constructor
  · show BuiltinAnimationSegmentEvaluators.BEZIER [p0, p1, p2, p3] 0 p0.time = p0.value
    simp only [BuiltinAnimationSegmentEvaluators.BEZIER,
      BuiltinAnimationSegmentEvaluators.lerp, getP, List.getD_cons_zero,
      List.getD_cons_succ]
    rw [sub_self, zero_div]
    ring
  · show BuiltinAnimationSegmentEvaluators.BEZIER [p0, p1, p2, p3] 0 p3.time = p3.value
    simp only [BuiltinAnimationSegmentEvaluators.BEZIER,
      BuiltinAnimationSegmentEvaluators.lerp, getP, List.getD_cons_zero,
      List.getD_cons_succ]
    rw [div_self hne]
    ring

/-- Witness for C9 at the concrete control points
`(0,0), (1,5), (2,-3), (3,7)`. -/
theorem c9_bezier_endpoints_witness :
    ((⟨0, 0⟩ : AnimationPoint).time < (⟨3, 7⟩ : AnimationPoint).time) ∧
    AnimationTrack.evaluate
      ⟨"B", [⟨0, 0⟩, ⟨1, 5⟩, ⟨2, -3⟩, ⟨3, 7⟩], [⟨0, SegmentKind.BEZIER⟩]⟩ 0 = 0 ∧
    AnimationTrack.evaluate
      ⟨"B", [⟨0, 0⟩, ⟨1, 5⟩, ⟨2, -3⟩, ⟨3, 7⟩], [⟨0, SegmentKind.BEZIER⟩]⟩ 3 = 7 :=
  ⟨by norm_num,
    (c9_bezier_endpoints ⟨0, 0⟩ ⟨1, 5⟩ ⟨2, -3⟩ ⟨3, 7⟩ "B" (by norm_num)).1,
    (c9_bezier_endpoints ⟨0, 0⟩ ⟨1, 5⟩ ⟨2, -3⟩ ⟨3, 7⟩ "B" (by norm_num)).2⟩

/-- An `Animation.evaluate` call leaves the animation unchanged except
(possibly) its `_lastTime` bookkeeping field. -/
lemma evaluate_anim_shape (a : Animation) (t w : ℚ) (blend : IAnimationBlender)
    (m : Model) (f : StackFlags) (g : Option GroupLookup) :
    ∃ t3, (a.evaluate t w blend m f g).anim = { a with lastTime := t3 } := by
  unfold Animation.evaluate
  split
  · exact ⟨a.lastTime, rfl⟩
  · exact ⟨_, rfl⟩

/-- Claim C7: for a playing layer mid-crossfade with `fadeDuration = 1`
and `fadeElapsed = 0`, after `_update(0.6)` then `_update(0.5)`
(cumulative `fadeElapsed = 1.1 > 1`), the next `_evaluate` call
finalizes the crossfade: it clears `goalAnimation` to none, sets
`currentTime` to the goal clock, and sets `currentAnimation` to the
former goal animation (the same clip, with only its `_lastTime`
bookkeeping field updated by its own evaluation — in the source this is
the identical mutable object). -/
theorem c7_crossfade_finalization (l : AnimationLayer) (a g : Animation)
    (target : Model) (flags : StackFlags)
    (hplay : l._play = true) (hanim : l._animation = some a)
    (hgoal : l._goalAnimation = some g) (hfd : l._fadeDuration = 1)
    (hft : l._fadeTime = 0) :
    (((l._update (3/5))._update (1/2))._evaluate target flags).1._goalAnimation = none ∧
    (((l._update (3/5))._update (1/2))._evaluate target flags).1._time =
      l._goalTime + 3/5 + 1/2 ∧
    ∃ t3, (((l._update (3/5))._update (1/2))._evaluate target flags).1._animation =
      some { g with lastTime := t3 } := by
  obtain ⟨oa, t0, og, gt0, ft0, fd0, pl, bl, cf, w⟩ := l
  replace hanim : oa = some a := hanim
  replace hgoal : og = some g := hgoal
  replace hfd : fd0 = 1 := hfd
  replace hft : ft0 = 0 := hft
  replace hplay : pl = true := hplay
  subst hanim hgoal hfd hft hplay
  have hl2 : (AnimationLayer._update
      (AnimationLayer._update ⟨some a, t0, some g, gt0, 0, 1, true, bl, cf, w⟩ (3/5)) (1/2)) =
      ⟨some a, t0 + 3/5 + 1/2, some g, gt0 + 3/5 + 1/2, 0 + 3/5 + 1/2, 1, true, bl, cf, w⟩ := by
    unfold AnimationLayer._update
    norm_num
  rw [hl2]
  obtain ⟨t3, ht3⟩ := evaluate_anim_shape g (gt0 + 3/5 + 1/2)
    (1 - (if w < 1 then w else 1) * cf (0 + 3/5 + 1/2) 1) bl
    ((a.evaluate (t0 + 3/5 + 1/2)
      ((if w < 1 then w else 1) * cf (0 + 3/5 + 1/2) 1) bl target flags none).target)
    ((a.evaluate (t0 + 3/5 + 1/2)
      ((if w < 1 then w else 1) * cf (0 + 3/5 + 1/2) 1) bl target flags none).flags)
    none
  refine ⟨?_, ?_, ⟨t3, ?_⟩⟩ <;>
    simp only [AnimationLayer._evaluate, Option.isSome_some, if_true, ht3] <;>
    norm_num

/-- Concrete mid-crossfade layer: playing, current clip `clipA`, goal
clip `clipG`, `fadeDuration = 1`, `fadeElapsed = 0`. -/
def layer0 : AnimationLayer :=
  ⟨some clipA, 0, some clipG, 0, 0, 1, true,
    BuiltinAnimationBlenders.OVERRIDE, BuiltinCrossfadeWeighters.LINEAR, 1⟩

/-- Witness for C7 on the concrete layer `layer0`. -/
theorem c7_crossfade_finalization_witness :
    layer0._play = true ∧
    (((layer0._update (3/5))._update (1/2))._evaluate M1 F1).1._goalAnimation = none ∧
    (((layer0._update (3/5))._update (1/2))._evaluate M1 F1).1._time =
      layer0._goalTime + 3/5 + 1/2 ∧
    ∃ t3, (((layer0._update (3/5))._update (1/2))._evaluate M1 F1).1._animation =
      some { clipG with lastTime := t3 } :=
  ⟨rfl,
    (c7_crossfade_finalization layer0 clipA clipG M1 F1 rfl rfl rfl rfl rfl).1,
    (c7_crossfade_finalization layer0 clipA clipG M1 F1 rfl rfl rfl rfl rfl).2.1,
    (c7_crossfade_finalization layer0 clipA clipG M1 F1 rfl rfl rfl rfl rfl).2.2⟩

/-- Claim C10: a layer whose `_play` flag is false but whose
`currentAnimation` is non-null is still evaluated against the Model
Runtime on every `Animator.updateAndEvaluate` call: `pause()`/`stop()`
freeze the layer's clocks (`_update` early-returns when not playing),
but the whole tick still equals the pure `_evaluate` pass at the frozen
current time against a freshly allocated touched-bitmap pair, because
`_evaluate` is gated only on `currentAnimation` being non-null. -/
theorem c10_paused_layer_still_evaluates (name : String) (l : AnimationLayer)
    (target : Model) (timeScale dt : ℚ) (hplay : l._play = false) :
    Animator.updateAndEvaluate ⟨target, timeScale, [(name, l)]⟩ dt =
      ((⟨(l._evaluate target ⟨List.replicate target.parameters.count false,
            List.replicate target.parts.count false⟩).2.1, timeScale,
        [(name, (l._evaluate target ⟨List.replicate target.parameters.count false,
            List.replicate target.parts.count false⟩).1)]⟩ : Animator),
       (l._evaluate target ⟨List.replicate target.parameters.count false,
         List.replicate target.parts.count false⟩).2.2.2) := by
  have hupd : ∀ d : ℚ, l._update d = l := by
    intro d
    unfold AnimationLayer._update
    rw [hplay]
    rfl
  unfold Animator.updateAndEvaluate
  simp only [List.map, hupd, ite_self, List.foldl, List.nil_append]

/-- Concrete paused layer: `_play = false`, current clip `clipA`, frozen
at `currentTime = 1/2`. -/
def layerPaused : AnimationLayer :=
  ⟨some clipA, 1/2, none, 0, 0, 0, false,
    BuiltinAnimationBlenders.OVERRIDE, BuiltinCrossfadeWeighters.LINEAR, 1⟩

/-- Witness for C10: the paused layer's tick equals the pure evaluation
pass, and that tick really mutates the target — the parameter value
moves from its pre-frame `1/4` to the curve's value `5` at the frozen
time `1/2`. -/
theorem c10_paused_layer_still_evaluates_witness :
    layerPaused._play = false ∧
    Animator.updateAndEvaluate ⟨M1, 1, [("base", layerPaused)]⟩ (1/30) =
      ((⟨(layerPaused._evaluate M1 ⟨List.replicate M1.parameters.count false,
            List.replicate M1.parts.count false⟩).2.1, 1,
        [("base", (layerPaused._evaluate M1 ⟨List.replicate M1.parameters.count false,
            List.replicate M1.parts.count false⟩).1)]⟩ : Animator),
       (layerPaused._evaluate M1 ⟨List.replicate M1.parameters.count false,
         List.replicate M1.parts.count false⟩).2.2.2) ∧
    (Animator.updateAndEvaluate ⟨M1, 1, [("base", layerPaused)]⟩ (1/30)).1._target.parameters.values
      = [5] ∧
    M1.parameters.values = [1/4] :=
  ⟨rfl, c10_paused_layer_still_evaluates "base" layerPaused M1 1 (1/30) rfl,
    by norm_num [Animator.updateAndEvaluate, AnimationLayer._update, AnimationLayer._evaluate,
      Animation.evaluate, layerPaused, clipA, M1, applyParamBlend, jsIndexOf,
      AnimationTrack.evaluate, scanFrom, segEvaluate, BuiltinAnimationSegmentEvaluators.LINEAR,
      getP, getSeg, BuiltinAnimationBlenders.OVERRIDE, List.findIdx?_cons, List.replicate,
      linTrack],
    rfl⟩

/-- Claim C1: within a single `Animator.updateAndEvaluate` call on a
target whose parameter is written by curves of two layers (evaluated in
registration order), the parameter is reset to its stored default
exactly once — before the first layer's blend, not before the second —
and the second-evaluated layer's blend receives the first layer's result
as its `source`, because both layers are passed the same shared
touched-bitmap pair freshly allocated at the start of the tick.  The
final value is `b2 (b1 default e1 i1 w1) e2 i2 w2`: the default seeds
only the first blend, the pre-frame value `v0` appears nowhere, and the
first blend's output is the second blend's source. -/
theorem c1_shared_touched_bitmap
    (v0 d0 : ℚ) (tr1 tr2 : AnimationTrack) (b1 b2 : IAnimationBlender)
    (w1 w2 t1 t2 lt1 lt2 dur1 dur2 dt ts : ℚ)
    (cf1 cf2 : IAnimationCrossfadeWeighter)
    (h1 : tr1.targetId = "ParamA") (h2 : tr2.targetId = "ParamA")
    (hw1 : 1/100 < w1) (hw1b : w1 ≤ 1) (hw2 : 1/100 < w2) (hw2b : w2 ≤ 1) :
    ((Animator.updateAndEvaluate
        ⟨⟨⟨["ParamA"], [v0], [d0], 1⟩, ⟨[], [], 0⟩⟩, ts,
          [("base", ⟨some ⟨dur1, 30, false, [], [tr1], [], [], lt1⟩, t1, none, 0, 0, 0,
              false, b1, cf1, w1⟩),
           ("overlay", ⟨some ⟨dur2, 30, false, [], [tr2], [], [], lt2⟩, t2, none, 0, 0, 0,
              false, b2, cf2, w2⟩)]⟩ dt).1)._target.parameters.values =
      [b2 (b1 d0 (tr1.evaluate t1) (tr1.evaluate 0) w1)
        (tr2.evaluate t2) (tr2.evaluate 0) w2] := by
  have hcl1 : (if w1 < 1 then w1 else 1) = w1 := by
    rcases lt_or_eq_of_le hw1b with h | h
    · rw [if_pos h]
    · rw [h]
      simp
  have hcl2 : (if w2 < 1 then w2 else 1) = w2 := by
    rcases lt_or_eq_of_le hw2b with h | h
    · rw [if_pos h]
    · rw [h]
      simp
  have hng1 : ¬ (w1 ≤ 1/100) := not_le.mpr hw1
  have hng2 : ¬ (w2 ≤ 1/100) := not_le.mpr hw2
  have hng1b : ¬ (w1 ≤ (100:ℚ)⁻¹) := by
    rw [inv_eq_one_div]
    exact hng1
  have hng2b : ¬ (w2 ≤ (100:ℚ)⁻¹) := by
    rw [inv_eq_one_div]
    exact hng2
  simp [Animator.updateAndEvaluate, AnimationLayer._update, AnimationLayer._evaluate,
    Animation.evaluate, applyParamBlend, jsIndexOf, h1, h2, hcl1, hcl2, hng1, hng2,
    hng1b, hng2b, List.replicate, List.findIdx?_cons]

/-- Witness for C1: first layer `OVERRIDE` at weight 1 over `linTrack`,
second layer `ADD` at weight `1/2` over `track2`, both targeting
`"ParamA"` on a one-parameter model. -/
theorem c1_shared_touched_bitmap_witness :
    linTrack.targetId = "ParamA" ∧ track2.targetId = "ParamA" ∧
    (1/100 : ℚ) < 1 ∧ (1 : ℚ) ≤ 1 ∧ (1/100 : ℚ) < 1/2 ∧ (1/2 : ℚ) ≤ 1 ∧
    ((Animator.updateAndEvaluate
        ⟨⟨⟨["ParamA"], [1/4], [1/3], 1⟩, ⟨[], [], 0⟩⟩, 1,
          [("base", ⟨some ⟨2, 30, false, [], [linTrack], [], [], 0⟩, 1/2, none, 0, 0, 0,
              false, BuiltinAnimationBlenders.OVERRIDE, BuiltinCrossfadeWeighters.LINEAR, 1⟩),
           ("overlay", ⟨some ⟨2, 30, false, [], [track2], [], [], 0⟩, 0, none, 0, 0, 0,
              false, BuiltinAnimationBlenders.ADD, BuiltinCrossfadeWeighters.LINEAR, 1/2⟩)]⟩
        (1/30)).1)._target.parameters.values =
      [BuiltinAnimationBlenders.ADD
        (BuiltinAnimationBlenders.OVERRIDE (1/3) (linTrack.evaluate (1/2))
          (linTrack.evaluate 0) 1)
        (track2.evaluate 0) (track2.evaluate 0) (1/2)] :=
  ⟨rfl, rfl, by norm_num, le_rfl, by norm_num, by norm_num,
    c1_shared_touched_bitmap (1/4) (1/3) linTrack track2
      BuiltinAnimationBlenders.OVERRIDE BuiltinAnimationBlenders.ADD
      1 (1/2) (1/2) 0 0 0 2 2 (1/30) 1
      BuiltinCrossfadeWeighters.LINEAR BuiltinCrossfadeWeighters.LINEAR
      rfl rfl (by norm_num) le_rfl (by norm_num) (by norm_num)⟩
